import Mathlib

/-!
Verification of the tokio-diesel bridging layer (src/lib.rs).

The repository adapts a synchronous r2d2 connection pool to an async
(tokio) context.  We embed the error model (`AsyncError`), the
`optional` adapter, the pool operations `run` / `transaction` /
`batch_execute_async`, and the generic query surface
(`execute_async`, `load_async`, `get_result_async`,
`get_results_async`, `first_async`) as pure Lean functions, and prove
the specified properties about them.

External collaborators (the r2d2 pool, diesel's query builder and its
transactional scope) are not part of the repository's sources; where a
claim depends on their behaviour, the corresponding definition is
modelled from the spec and marked as such in its doc comment.
-/

/-- The underlying pool (r2d2) error.  Its structure is opaque to the
bridging layer; we model it as a tagged value. -/
structure R2d2Error where
  code : Nat
deriving DecidableEq, Repr

/-- The underlying diesel query error (`diesel::result::Error`).  The
bridging layer only ever distinguishes the `NotFound` variant (in
`OptionalExtension::optional`); every other variant is opaque, modelled
by a tag. -/
inductive DieselError where
  | NotFound
  | other (code : Nat)
deriving DecidableEq, Repr

/-- `AsyncError` from src/lib.rs: either a failure to check out a
connection from the pool, or a failure of the query itself. -/
inductive AsyncError where
  | Checkout (err : R2d2Error)
  | Error (err : DieselError)
deriving DecidableEq, Repr

/-- `AsyncResult<R> = Result<R, AsyncError>` from src/lib.rs. -/
abbrev AsyncResult (R : Type) := Except AsyncError R

/-- `QueryResult<R> = Result<R, diesel::result::Error>`. -/
abbrev QueryResult (R : Type) := Except DieselError R

/-- `OptionalExtension::optional` from src/lib.rs: maps a success to
`Some`, the `NotFound` query failure to a `None` success, and passes
every other failure through unchanged. -/
def OptionalExtension.optional {T : Type} : AsyncResult T → Except AsyncError (Option T)
  | .ok value => .ok (some value)
  | .error (.Error .NotFound) => .ok none
  | .error e => .error e

/-- The r2d2 pool, as seen by the bridging layer: an opaque capability
whose `get` (checkout) either leases a connection or fails with a pool
error.  `Conn` is the (opaque) connection type. -/
structure Pool (Conn : Type) where
  get : Except R2d2Error Conn

/-- `AsyncConnection::run` from src/lib.rs: check out a connection
(`self_.get().map_err(AsyncError::Checkout)?`), then apply the closure
and map its failure through `AsyncError::Error`.  The embedding keeps
the value-level behaviour of the `block_in_place` closure. -/
def Pool.run {Conn R : Type} (pool : Pool Conn) (f : Conn → QueryResult R) :
    AsyncResult R :=
  match pool.get with
  | .error e => .error (.Checkout e)
  | .ok conn =>
    match f conn with
    | .error e => .error (.Error e)
    | .ok v => .ok v

/-- C1: `optional` maps `Ok(v)` to `Ok(Some(v))`, the `NotFound` query
failure to `Ok(None)`, and returns every other failure — Checkout
failures included — unchanged. -/
theorem optional_spec :
    (∀ (T : Type) (v : T),
      OptionalExtension.optional (.ok v : AsyncResult T) = .ok (some v)) ∧
    (∀ (T : Type),
      OptionalExtension.optional (.error (.Error .NotFound) : AsyncResult T) = .ok none) ∧
    (∀ (T : Type) (e : AsyncError), e ≠ .Error .NotFound →
      OptionalExtension.optional (.error e : AsyncResult T) = .error e) := by
  refine ⟨fun T v => rfl, fun T => rfl, fun T e he => ?_⟩
  match e with
  | .Checkout err => rfl
  | .Error .NotFound => exact absurd rfl he
  | .Error (.other c) => rfl

/-- Witness for C1: `optional` at concrete inputs, including a Checkout
failure, which is returned unchanged. -/
theorem optional_spec_witness :
    OptionalExtension.optional (.error (.Checkout ⟨7⟩) : AsyncResult Nat)
      = .error (.Checkout ⟨7⟩) :=
  optional_spec.2.2 Nat (.Checkout ⟨7⟩) (by decide)

/-- `StdError::source` for `AsyncError` from src/lib.rs: both variants
expose the wrapped underlying error (pool error on the left, query
error on the right); neither returns `None`. -/
def AsyncError.sourceErr : AsyncError → Option (R2d2Error ⊕ DieselError)
  | .Checkout err => some (.inl err)
  | .Error err => some (.inr err)

/-- Connection handle for the simple-connection surface: the only
operation the bridging layer uses directly is `batch_execute`, whose
outcome we model as a function of the SQL text. -/
structure SimpleConn where
  batch_execute : String → QueryResult Unit

/-- `AsyncSimpleConnection::batch_execute_async` from src/lib.rs: clone
the pool handle, copy the SQL string, then inside the blocking closure
check out a connection (failure mapped to `Checkout`) and run
`batch_execute` on the copied string (failure mapped to `Error`). -/
def batch_execute_async (pool : Pool SimpleConn) (query : String) : AsyncResult Unit :=
  let q := query
  match pool.get with
  | .error e => .error (.Checkout e)
  | .ok conn =>
    match conn.batch_execute q with
    | .error e => .error (.Error e)
    | .ok u => .ok u

/-- Observable steps of one `run` call, in the order the source
performs them: the closure is handed to the blocking mechanism
(`task::block_in_place`), the checkout is attempted inside it, and the
user closure runs only if checkout succeeded. -/
inductive RunEvent where
  | offloadStart
  | checkoutAttempt (ok : Bool)
  | closureRun
deriving DecidableEq, Repr

/-- Event trace of `AsyncConnection::run` as written in src/lib.rs:
`task::block_in_place(move || { let mut conn = self_.get()…?; f(…) })`.
The whole closure — checkout included — is handed to `block_in_place`
first; checkout happens inside the blocking region; `f` runs only
after a successful checkout. -/
def Pool.runTrace {Conn R : Type} (pool : Pool Conn) (_f : Conn → QueryResult R) :
    List RunEvent :=
  match pool.get with
  | .error _ => [.offloadStart, .checkoutAttempt false]
  | .ok _ => [.offloadStart, .checkoutAttempt true, .closureRun]

/-- C2: `run` fails with `Checkout` (and never runs the closure: the
outcome is the same for every closure) when checkout fails; otherwise
it maps a closure failure `e` to `Error e` and passes a closure success
through unchanged. -/
theorem run_spec :
    (∀ (Conn R : Type) (p : Pool Conn) (f g : Conn → QueryResult R) (e : R2d2Error),
      p.get = .error e →
        p.run f = .error (.Checkout e) ∧ p.run f = p.run g) ∧
    (∀ (Conn R : Type) (p : Pool Conn) (f : Conn → QueryResult R)
        (c : Conn) (e : DieselError),
      p.get = .ok c → f c = .error e → p.run f = .error (.Error e)) ∧
    (∀ (Conn R : Type) (p : Pool Conn) (f : Conn → QueryResult R)
        (c : Conn) (v : R),
      p.get = .ok c → f c = .ok v → p.run f = .ok v) := by
  refine ⟨fun Conn R p f g e hp => ?_, fun Conn R p f c e hp hf => ?_,
    fun Conn R p f c v hp hf => ?_⟩
  · constructor <;> simp [Pool.run, hp]
  · simp [Pool.run, hp, hf]
  · simp [Pool.run, hp, hf]

/-- Witness for C2: a pool whose checkout fails yields the Checkout
failure for any closure, and a successful pool maps the closure's
outcome through. -/
theorem run_spec_witness :
    ((Pool.mk (.error ⟨3⟩) : Pool Nat).run (fun c => .ok (c + 1))
        = .error (.Checkout ⟨3⟩) ∧
      (Pool.mk (.error ⟨3⟩) : Pool Nat).run (fun c => .ok (c + 1))
        = (Pool.mk (.error ⟨3⟩) : Pool Nat).run (fun _ => .error .NotFound)) ∧
    (Pool.mk (.ok 5) : Pool Nat).run (fun c => (.ok (c + 1) : QueryResult Nat))
      = .ok 6 :=
  ⟨run_spec.1 Nat Nat (Pool.mk (.error ⟨3⟩)) (fun c => .ok (c + 1))
      (fun _ => .error .NotFound) ⟨3⟩ rfl,
    run_spec.2.2 Nat Nat (Pool.mk (.ok 5)) (fun c => .ok (c + 1)) 5 6 rfl rfl⟩

/-- A concrete pool whose checkout always fails, for examining the
`run` trace on the checkout-failure path. -/
def failingPool : Pool Nat := Pool.mk (.error ⟨0⟩)

/-- C3 counterexample: the claim says that when checkout fails no work
is handed to the blocking-thread mechanism.  On the code this is false:
`task::block_in_place` receives the whole closure — checkout included —
before checkout is attempted, so the trace of a failing-checkout `run`
still contains the offload step. -/
theorem run_offload_counterexample :
    failingPool.get = .error ⟨0⟩ ∧
    RunEvent.offloadStart ∈ failingPool.runTrace (fun c => (.ok c : QueryResult Nat)) := by
  constructor
  · rfl
  · simp [failingPool, Pool.runTrace]

/-- C3 amended: when checkout fails, `run` returns the Checkout failure
and the user closure is never executed; but checkout itself happens
inside the blocking region — the trace is exactly offload, then failed
checkout, with no closure execution. -/
theorem run_no_closure_on_checkout_failure :
    ∀ (Conn R : Type) (p : Pool Conn) (f : Conn → QueryResult R) (e : R2d2Error),
      p.get = .error e →
        p.run f = .error (.Checkout e) ∧
        p.runTrace f = [.offloadStart, .checkoutAttempt false] ∧
        RunEvent.closureRun ∉ p.runTrace f := by
  intro Conn R p f e hp
  refine ⟨?_, ?_, ?_⟩ <;> simp [Pool.run, Pool.runTrace, hp]

/-- Witness for the amended C3 at the concrete failing pool. -/
theorem run_no_closure_on_checkout_failure_witness :
    failingPool.run (fun c => (.ok c : QueryResult Nat)) = .error (.Checkout ⟨0⟩) ∧
    failingPool.runTrace (fun c => (.ok c : QueryResult Nat))
      = [.offloadStart, .checkoutAttempt false] ∧
    RunEvent.closureRun ∉ failingPool.runTrace (fun c => (.ok c : QueryResult Nat)) :=
  run_no_closure_on_checkout_failure Nat Nat failingPool
    (fun c => (.ok c : QueryResult Nat)) ⟨0⟩ rfl

/-- C8: the error-source accessor exposes the wrapped pool error for a
Checkout failure and the wrapped query error for a Query failure, is
never `none`, and `run` surfaces each failure immediately with its
cause attached, unretried and unrecovered. -/
theorem asyncError_source_spec :
    (∀ (e : R2d2Error), (AsyncError.Checkout e).sourceErr = some (.inl e)) ∧
    (∀ (e : DieselError), (AsyncError.Error e).sourceErr = some (.inr e)) ∧
    (∀ (a : AsyncError), a.sourceErr.isSome = true) ∧
    (∀ (Conn R : Type) (p : Pool Conn) (f : Conn → QueryResult R) (a : AsyncError),
      p.run f = .error a → a.sourceErr.isSome = true) := by
  refine ⟨fun e => rfl, fun e => rfl, fun a => ?_, fun Conn R p f a _ => ?_⟩
  · cases a <;> rfl
  · cases a <;> rfl

/-- Witness for C8 at concrete errors: both variants expose their
wrapped cause, and a failing `run` carries an inspectable cause. -/
theorem asyncError_source_spec_witness :
    (AsyncError.Checkout ⟨2⟩).sourceErr = some (.inl ⟨2⟩) ∧
    (AsyncError.Error .NotFound).sourceErr = some (.inr .NotFound) ∧
    (AsyncError.Checkout ⟨2⟩).sourceErr.isSome = true ∧
    (AsyncError.Checkout ⟨0⟩).sourceErr.isSome = true :=
  ⟨asyncError_source_spec.1 ⟨2⟩, asyncError_source_spec.2.1 .NotFound,
    asyncError_source_spec.2.2.1 (.Checkout ⟨2⟩),
    asyncError_source_spec.2.2.2 Nat Nat failingPool
      (fun c => (.ok c : QueryResult Nat)) (.Checkout ⟨0⟩) rfl⟩

/-- C10: `batch_execute_async` is exactly `run` applied to the closure
that batch-executes the (copied) SQL string, with the same two-stage
error mapping: Checkout on checkout failure, Error on execution
failure, unit success otherwise. -/
theorem batch_execute_async_spec :
    (∀ (p : Pool SimpleConn) (s : String),
      batch_execute_async p s = p.run (fun conn => conn.batch_execute s)) ∧
    (∀ (p : Pool SimpleConn) (s : String) (e : R2d2Error),
      p.get = .error e → batch_execute_async p s = .error (.Checkout e)) ∧
    (∀ (p : Pool SimpleConn) (s : String) (c : SimpleConn) (e : DieselError),
      p.get = .ok c → c.batch_execute s = .error e →
        batch_execute_async p s = .error (.Error e)) ∧
    (∀ (p : Pool SimpleConn) (s : String) (c : SimpleConn),
      p.get = .ok c → c.batch_execute s = .ok () →
        batch_execute_async p s = .ok ()) := by
  refine ⟨fun p s => ?_, fun p s e hp => ?_, fun p s c e hp hc => ?_,
    fun p s c hp hc => ?_⟩
  · cases hg : p.get with
    | error e => simp [batch_execute_async, Pool.run, hg]
    | ok conn => cases hc : conn.batch_execute s <;>
        simp [batch_execute_async, Pool.run, hg, hc]
  · simp [batch_execute_async, hp]
  · simp [batch_execute_async, hp, hc]
  · simp [batch_execute_async, hp, hc]

/-- Witness for C10: a pool with one connection whose batch execution
fails on the given SQL string yields the Query failure, and checkout
failure yields the Checkout failure. -/
theorem batch_execute_async_spec_witness :
    batch_execute_async (Pool.mk (.error ⟨4⟩)) "CREATE TABLE t"
      = .error (.Checkout ⟨4⟩) ∧
    batch_execute_async (Pool.mk (.ok ⟨fun _ => .error (.other 9)⟩)) "SELECT 1"
      = .error (.Error (.other 9)) :=
  ⟨batch_execute_async_spec.2.1 (Pool.mk (.error ⟨4⟩)) "CREATE TABLE t" ⟨4⟩ rfl,
    batch_execute_async_spec.2.2.1 (Pool.mk (.ok ⟨fun _ => .error (.other 9)⟩))
      "SELECT 1" ⟨fun _ => .error (.other 9)⟩ (.other 9) rfl rfl⟩

/-- A composable query description, as the bridging layer sees it: an
immutable value that can be applied synchronously against a connection.
Modelled from the spec: the backing query-building collaborator is
external; all this layer requires is that a description can be
"applied" against a connection to produce rows (`rows`) or an
affected-row count (`executeCount`). -/
structure QueryDesc (Conn U : Type) where
  rows : Conn → QueryResult (List U)
  executeCount : Conn → QueryResult Nat

namespace QueryDesc

/-- Modelled from the spec: the backing library's row-limit combinator
(`LimitDsl`): a limited query yields at most the first `n` rows of the
original, leaving everything else unchanged. -/
def limit {Conn U : Type} (q : QueryDesc Conn U) (n : Nat) : QueryDesc Conn U :=
  ⟨fun c => (q.rows c).map (fun l => l.take n), q.executeCount⟩

/-- Modelled from the spec: the backing library's `execute` terminal
action — apply the query, discard rows, return the affected count. -/
def execute {Conn U : Type} (q : QueryDesc Conn U) (c : Conn) : QueryResult Nat :=
  q.executeCount c

/-- Modelled from the spec: the backing library's `load` terminal
action — apply the query and collect all rows, in order. -/
def load {Conn U : Type} (q : QueryDesc Conn U) (c : Conn) : QueryResult (List U) :=
  q.rows c

/-- Modelled from the spec: the backing library's `get_results`
terminal action — semantically the same as `load`, kept distinct for
API symmetry. -/
def get_results {Conn U : Type} (q : QueryDesc Conn U) (c : Conn) : QueryResult (List U) :=
  q.load c

/-- Modelled from the spec: the backing library's `get_result` terminal
action — expect a row; the first row if any matches, the `NotFound`
query failure if none does. -/
def get_result {Conn U : Type} (q : QueryDesc Conn U) (c : Conn) : QueryResult U :=
  match q.load c with
  | .error e => .error e
  | .ok [] => .error .NotFound
  | .ok (x :: _) => .ok x

/-- Modelled from the spec: the backing library's `first` terminal
action — apply an implicit row-limit of 1, then expect one row. -/
def first {Conn U : Type} (q : QueryDesc Conn U) (c : Conn) : QueryResult U :=
  (q.limit 1).get_result c

end QueryDesc

/-- `execute_async` from src/lib.rs: `asc.run(|conn| self.execute(conn))`. -/
def execute_async {Conn U : Type} (q : QueryDesc Conn U) (asc : Pool Conn) :
    AsyncResult Nat :=
  asc.run (fun conn => q.execute conn)

/-- `load_async` from src/lib.rs: `asc.run(|mut conn| self.load(&mut conn))`. -/
def load_async {Conn U : Type} (q : QueryDesc Conn U) (asc : Pool Conn) :
    AsyncResult (List U) :=
  asc.run (fun conn => q.load conn)

/-- `get_result_async` from src/lib.rs:
`asc.run(|mut conn| self.get_result(&mut conn))`. -/
def get_result_async {Conn U : Type} (q : QueryDesc Conn U) (asc : Pool Conn) :
    AsyncResult U :=
  asc.run (fun conn => q.get_result conn)

/-- `get_results_async` from src/lib.rs:
`asc.run(|mut conn| self.get_results(&mut conn))`. -/
def get_results_async {Conn U : Type} (q : QueryDesc Conn U) (asc : Pool Conn) :
    AsyncResult (List U) :=
  asc.run (fun conn => q.get_results conn)

/-- `first_async` from src/lib.rs:
`asc.run(|mut conn| self.first(&mut conn))`. -/
def first_async {Conn U : Type} (q : QueryDesc Conn U) (asc : Pool Conn) :
    AsyncResult U :=
  asc.run (fun conn => q.first conn)

/-- C5: each of the five async query operations is exactly the pool
adapter's `run` applied to the closure performing the corresponding
synchronous terminal action on the consumed query description, with no
additional behaviour. -/
theorem async_query_surface_is_run :
    ∀ (Conn U : Type) (q : QueryDesc Conn U) (p : Pool Conn),
      execute_async q p = p.run (fun conn => q.execute conn) ∧
      load_async q p = p.run (fun conn => q.load conn) ∧
      get_result_async q p = p.run (fun conn => q.get_result conn) ∧
      get_results_async q p = p.run (fun conn => q.get_results conn) ∧
      first_async q p = p.run (fun conn => q.first conn) :=
  fun _ _ _ _ => ⟨rfl, rfl, rfl, rfl, rfl⟩

/-- C6: `get_results_async` and `load_async` agree on every query and
pool — the same ordered rows on success and the same failure
otherwise. -/
theorem get_results_async_eq_load_async :
    ∀ (Conn U : Type) (q : QueryDesc Conn U) (p : Pool Conn),
      get_results_async q p = load_async q p :=
  fun _ _ _ _ => rfl

/-- C7: `first_async` applies an implicit row-limit of 1 before
executing: with a leased connection it returns the first matching row
when one exists (even if the unlimited query would match more), and the
`NotFound` query failure when no row matches. -/
theorem first_async_spec :
    ∀ (Conn U : Type) (q : QueryDesc Conn U) (p : Pool Conn) (c : Conn),
      p.get = .ok c →
        (first_async q p = p.run (fun conn => (q.limit 1).get_result conn)) ∧
        (∀ (x : U) (rest : List U),
          q.rows c = .ok (x :: rest) → first_async q p = .ok x) ∧
        (q.rows c = .ok [] → first_async q p = .error (.Error .NotFound)) := by
  intro Conn U q p c hp
  refine ⟨rfl, fun x rest hr => ?_, fun hr => ?_⟩
  · simp [first_async, Pool.run, hp, QueryDesc.first, QueryDesc.get_result,
      QueryDesc.limit, QueryDesc.load, hr, Except.map]
  · simp [first_async, Pool.run, hp, QueryDesc.first, QueryDesc.get_result,
      QueryDesc.limit, QueryDesc.load, hr, Except.map]

/-- Witness for C7: a two-row query under `first_async` yields the
first row only; an empty query yields the `NotFound` failure. -/
theorem first_async_spec_witness :
    first_async (QueryDesc.mk (fun _ => .ok [10, 20]) (fun _ => .ok 2))
        (Pool.mk (.ok 0) : Pool Nat) = .ok 10 ∧
    first_async (QueryDesc.mk (fun _ => (.ok [] : QueryResult (List Nat)))
        (fun _ => .ok 0)) (Pool.mk (.ok 0) : Pool Nat)
      = .error (.Error .NotFound) :=
  ⟨(first_async_spec Nat Nat (QueryDesc.mk (fun _ => .ok [10, 20]) (fun _ => .ok 2))
      (Pool.mk (.ok 0)) 0 rfl).2.1 10 [20] rfl,
    (first_async_spec Nat Nat (QueryDesc.mk (fun _ => .ok []) (fun _ => .ok 0))
      (Pool.mk (.ok 0)) 0 rfl).2.2 rfl⟩

/-- Outcome of one synchronous closure over a database state `σ`: it
finishes with a value, finishes with a query error, or panics; in each
case it leaves the raw (uncommitted) state it produced. -/
inductive ClosureOutcome (σ R : Type) where
  | ok (s : σ) (v : R)
  | err (s : σ) (e : DieselError)
  | panics (s : σ)
deriving DecidableEq, Repr

/-- Outcome of a `run`/`transaction` call over a database state: the
final visible state together with the value, the `AsyncError`, or a
propagated panic. -/
inductive RunResult (σ R : Type) where
  | ok (s : σ) (v : R)
  | err (s : σ) (e : AsyncError)
  | panicked (s : σ)
deriving DecidableEq, Repr

/-- A stateful view of the pool for the transaction claim: checkout
either succeeds or fails, and `db` is the current backing-store
state. -/
structure SPool (σ : Type) where
  checkout : Except R2d2Error Unit
  db : σ

/-- `AsyncConnection::run` over the stateful view: checkout (failure
mapped to `Checkout`), then the closure runs directly on the live
state — its writes are visible whether it succeeds, fails or
panics. -/
def SPool.runS {σ R : Type} (p : SPool σ) (f : σ → ClosureOutcome σ R) :
    RunResult σ R :=
  match p.checkout with
  | .error e => .err p.db (.Checkout e)
  | .ok _ =>
    match f p.db with
    | .ok s v => .ok s v
    | .err s e => .err s (.Error e)
    | .panics s => .panicked s

/-- Modelled from the spec: the backing library's transactional scope
(`Connection::transaction`, an external collaborator) — a transaction
is opened before the closure runs, committed exactly when the closure
succeeds, and rolled back (the pre-transaction state restored) when it
fails or panics. -/
def Connection.transaction {σ R : Type} (s : σ) (f : σ → ClosureOutcome σ R) :
    ClosureOutcome σ R :=
  match f s with
  | .ok s' v => .ok s' v
  | .err _ e => .err s e
  | .panics _ => .panics s

/-- `AsyncConnection::transaction` from src/lib.rs over the stateful
view: checkout (failure mapped to `Checkout`), then
`conn.transaction(|conn| f(conn))` with its failure mapped to
`Error`. -/
def SPool.transactionS {σ R : Type} (p : SPool σ) (f : σ → ClosureOutcome σ R) :
    RunResult σ R :=
  match p.checkout with
  | .error e => .err p.db (.Checkout e)
  | .ok _ =>
    match Connection.transaction p.db f with
    | .ok s v => .ok s v
    | .err s e => .err s (.Error e)
    | .panics s => .panicked s

/-- C4: `transaction` behaves exactly like `run` of the closure wrapped
in the transactional scope; with a leased connection, the transaction
commits — the closure's writes become visible — exactly when the
closure succeeds, and rolls back to the pre-transaction state when the
closure fails or panics, the decision depending only on the closure's
own outcome. -/
theorem transaction_spec :
    ∀ (σ R : Type) (p : SPool σ) (f : σ → ClosureOutcome σ R),
      (p.transactionS f = p.runS (fun s => Connection.transaction s f)) ∧
      (p.checkout = .ok () →
        (∀ (s : σ) (v : R), f p.db = .ok s v → p.transactionS f = .ok s v) ∧
        (∀ (s : σ) (e : DieselError), f p.db = .err s e →
          p.transactionS f = .err p.db (.Error e)) ∧
        (∀ (s : σ), f p.db = .panics s → p.transactionS f = .panicked p.db)) := by
  intro σ R p f
  refine ⟨rfl, fun hc => ⟨fun s v hf => ?_, fun s e hf => ?_, fun s hf => ?_⟩⟩ <;>
    simp [SPool.transactionS, Connection.transaction, hc, hf]

/-- Witness for C4 over a concrete write log: a successful closure's
write is committed; a failing closure's and a panicking closure's
writes are rolled back, leaving the original state. -/
theorem transaction_spec_witness :
    (SPool.mk (.ok ()) [0] : SPool (List Nat)).transactionS
        (fun s => .ok (5 :: s) 5) = .ok [5, 0] 5 ∧
    (SPool.mk (.ok ()) [0] : SPool (List Nat)).transactionS
        (fun s => (.err (5 :: s) (.other 1) : ClosureOutcome (List Nat) Nat))
      = .err [0] (.Error (.other 1)) ∧
    (SPool.mk (.ok ()) [0] : SPool (List Nat)).transactionS
        (fun s => (.panics (5 :: s) : ClosureOutcome (List Nat) Nat))
      = .panicked [0] :=
  ⟨((transaction_spec (List Nat) Nat (SPool.mk (.ok ()) [0])
        (fun s => .ok (5 :: s) 5)).2 rfl).1 [5, 0] 5 rfl,
    ((transaction_spec (List Nat) Nat (SPool.mk (.ok ()) [0])
        (fun s => .err (5 :: s) (.other 1))).2 rfl).2.1 [5, 0] (.other 1) rfl,
    ((transaction_spec (List Nat) Nat (SPool.mk (.ok ()) [0])
        (fun s => .panics (5 :: s))).2 rfl).2.2 [5, 0] rfl⟩
